import Mathlib

/-!
Verification development for the SciDB per-peer Connection transport core
(src/src/network/Connection.h): the Channel / MultiChannelQueue flow-control
data structures and the Connection state machine.

Functions whose bodies appear inline in the header (Channel's constructor,
Channel.isActive, Channel.validateRemoteState, MultiChannelQueue's
constructor, MultiChannelQueue.isActive, getNextGenId, Connection.isConnected)
are embedded directly from that source.  Functions only declared in the
header, whose bodies live in Connection.cpp (not part of this fragment), are
modelled from the specification document; each such definition says so in its
doc comment.

Machine integers (uint64_t) are embedded as Nat: the sequence counters only
grow by 1 per message, so 64-bit wrap-around is unreachable in practice; the
one place where uint64 subtraction could wrap (localSeqNum - localSeqNumOnPeer
in Channel.isActive) sits behind the source's assert(_localSeqNum >=
_localSeqNumOnPeer), and theorems about it carry that bound as a hypothesis,
inside which Nat subtraction and uint64 subtraction agree.
-/

/-- Opaque message envelope.  The core treats messages opaquely except that a
dropped message triggers its owning query's abort callback; we record dropped
messages by value, so a Nat identifying the message/owning query suffices. -/
abbrev Msg := Nat

/-- NetworkManager::OverflowException: push refused for lack of space. -/
inductive PushError where
  | Overflow
deriving Repr, DecidableEq

/-- Connection::Channel state: a FIFO stream of pending outbound messages for
one traffic class (NetworkManager::MessageQueueType), with credit state.
Fields mirror the private members of the source class (underscores dropped). -/
structure Channel where
  remoteSize : Nat
  localSeqNum : Nat
  remoteSeqNum : Nat
  localSeqNumOnPeer : Nat
  msgQ : List Msg
  sendQueueLimit : Nat
deriving Repr, DecidableEq

/-- Channel constructor (Connection.h lines 66-79): starts with all sequence
numbers 0 and an empty queue; takes the send-queue limit and receive-queue
hint from the NetworkManager (passed here as explicit arguments) and replaces
each by 1 unless it is strictly greater than 1. -/
def Channel.init (sendQueueLimitCfg receiveQueueHint : Nat) : Channel :=
  { remoteSize := if receiveQueueHint > 1 then receiveQueueHint else 1
    localSeqNum := 0
    remoteSeqNum := 0
    localSeqNumOnPeer := 0
    msgQ := []
    sendQueueLimit := if sendQueueLimitCfg > 1 then sendQueueLimitCfg else 1 }

/-- Channel::isActive (Connection.h lines 129-133): messages are ready to be
popped iff the peer-advertised capacity exceeds the in-flight count and the
queue is non-empty. -/
def Channel.isActive (c : Channel) : Bool :=
  decide (c.remoteSize > c.localSeqNum - c.localSeqNumOnPeer) && !c.msgQ.isEmpty

/-- Channel::validateRemoteState (Connection.h lines 121-126): the peer must
not claim to have observed a localSeqNum beyond what we ever generated. -/
def Channel.validateRemoteState (c : Channel)
    (rSize localSeqNum remoteSeqNum : Nat) : Bool :=
  decide (c.localSeqNum ≥ localSeqNum)

/-- Modelled from the spec: Channel::getAvailable is only declared in the
header; its body is in Connection.cpp, absent from this fragment.  Spec section
4.2 describes available space as min(sender space, receiver space): the local
queue room and the peer credit remoteCapacity - inFlight. -/
def Channel.getAvailable (c : Channel) : Nat :=
  min (c.sendQueueLimit - c.msgQ.length)
      (c.remoteSize - (c.localSeqNum - c.localSeqNumOnPeer))

/-- Modelled from the spec: Channel::getNewStatus is only declared in the
header.  Spec sections 4.1/8.6: a status delta is emitted iff the available
space crossed the 0 boundary in either direction; its payload is the new
available count. -/
def getNewStatus (spaceBefore spaceAfter : Nat) : Option Nat :=
  if (decide (spaceBefore = 0)) != (decide (spaceAfter = 0))
  then some spaceAfter else none

/-- Modelled from the spec: Channel::pushBack is only declared in the header;
its body is in Connection.cpp, absent from this fragment.  Spec section 4.1:
admissible iff both queue.size < sendLimit and the in-flight window
localSeq - localSeqOnPeer < sendLimit; on success append the message and
increment localSeq, returning a status delta iff available space crossed 0;
otherwise refuse with Overflow (spec section 7), leaving the state unchanged. -/
def Channel.pushBack (c : Channel) (m : Msg) :
    Except PushError (Channel × Option Nat) :=
  if c.msgQ.length < c.sendQueueLimit ∧
     c.localSeqNum - c.localSeqNumOnPeer < c.sendQueueLimit then
    let next : Channel :=
      { c with msgQ := c.msgQ ++ [m], localSeqNum := c.localSeqNum + 1 }
    Except.ok (next, getNewStatus c.getAvailable next.getAvailable)
  else
    Except.error PushError.Overflow

/-- Modelled from the spec: Channel::popFront is only declared in the header.
Spec section 4.1: if isActive() is false (no credit or no messages) no message
is returned; otherwise the head is dequeued (localSeq is not touched; it was
incremented at push), with a status delta iff available space crossed 0. -/
def Channel.popFront (c : Channel) : Channel × Option Msg × Option Nat :=
  if c.isActive then
    match c.msgQ with
    | [] => (c, none, none)
    | m :: rest =>
      let next : Channel := { c with msgQ := rest }
      (next, some m, getNewStatus c.getAvailable next.getAvailable)
  else (c, none, none)

/-- Modelled from the spec: Channel::setRemoteState is only declared in the
header.  Spec section 4.1: update remoteCapacity (kept at least 1 per the
section 3 invariant table), advance localSeqOnPeer monotonically (regressions
from a stale frame are ignored), record remoteSeq, and return a status delta
iff available space crossed 0. -/
def Channel.setRemoteState (c : Channel)
    (rSize localSeqNum remoteSeqNum : Nat) : Channel × Option Nat :=
  let next : Channel :=
    { c with
      remoteSize := if rSize > 1 then rSize else 1
      localSeqNumOnPeer := max c.localSeqNumOnPeer localSeqNum
      remoteSeqNum := remoteSeqNum }
  (next, getNewStatus c.getAvailable next.getAvailable)

/-- Modelled from the spec: Channel::abortMessages is only declared in the
header.  Spec section 4.1: drop all queued messages, invoking each dropped
message's owning-query abort callback (returned here as the list of dropped
messages); sequence numbers are not reset (that only happens on a generation
bump). -/
def Channel.abortMessages (c : Channel) : Channel × List Msg :=
  ({ c with msgQ := [] }, c.msgQ)

/-- Modelled from the spec: the sequence-number reset applied to each channel
by MultiChannelQueue::setRemoteState on a peer-restart generation bump (spec
sections 4.2 case 2 and 8 scenario 3: localSeq and localSeqOnPeer return to 0,
and the peer's sequence counter restarts with its new generation). -/
def Channel.resetSeqNums (c : Channel) : Channel :=
  { c with localSeqNum := 0, localSeqNumOnPeer := 0, remoteSeqNum := 0 }

example : (Channel.init 0 0).sendQueueLimit = 1 := by decide
example : (Channel.init 3 4).remoteSize = 4 := by decide
example : (Channel.init 2 2).isActive = false := by decide
example :
    ((Channel.init 2 2).pushBack 7) =
      Except.ok ({ Channel.init 2 2 with msgQ := [7], localSeqNum := 1 },
                 none) := rfl

/-- Connection::MultiChannelQueue state (Connection.h lines 173-289): one
Channel per NetworkManager::MessageQueueType, drained round-robin, with cached
active-channel count and total size, and the generation-id pair used to detect
restarts on either side.  Fields mirror the private members of the source
class (underscores dropped). -/
structure MultiChannelQueue where
  channels : List Channel
  currChannel : Nat
  activeChannelCount : Nat
  size : Nat
  remoteGenId : Nat
  localGenId : Nat
deriving Repr, DecidableEq

/-- MultiChannelQueue constructor (Connection.h lines 176-183): one channel
per message-queue type (each built by the Channel constructor from its
per-class configuration pair), round-robin cursor at mqtNone = 0, cached
counters 0, remoteGenId 0 (unknown) and localGenId minted at construction. -/
def MultiChannelQueue.init (cfgs : List (Nat × Nat)) (genId : Nat) :
    MultiChannelQueue :=
  { channels := cfgs.map (fun p => Channel.init p.1 p.2)
    currChannel := 0
    activeChannelCount := 0
    size := 0
    remoteGenId := 0
    localGenId := genId }

/-- MultiChannelQueue::isActive (Connection.h lines 231-235): O(1) readiness
check on the cached active-channel count. -/
def MultiChannelQueue.isActive (q : MultiChannelQueue) : Bool :=
  decide (q.activeChannelCount > 0)

/-- Modelled from the spec: MultiChannelQueue::pushBack is only declared in
the header; its body is in Connection.cpp, absent from this fragment.  Spec
section 4.2: route to the channel of the given class; on success bump the
cached total size and adjust the cached active count by the channel's
idle/active transition (paired with the section 8 invariant that the cache
always equals the recount, the adjustment goes in both directions); on
Overflow nothing changes. -/
def MultiChannelQueue.pushBack (q : MultiChannelQueue) (mqt : Nat) (m : Msg) :
    Except PushError (MultiChannelQueue × Option Nat) :=
  match q.channels[mqt]? with
  | none => Except.error PushError.Overflow
  | some c =>
    match c.pushBack m with
    | Except.error e => Except.error e
    | Except.ok (c2, st) =>
      Except.ok
        ({ q with
           channels := q.channels.set mqt c2
           size := q.size + 1
           activeChannelCount :=
             if c.isActive = c2.isActive then q.activeChannelCount
             else if c2.isActive then q.activeChannelCount + 1
             else q.activeChannelCount - 1 }, st)

/-- Round-robin probe order: the channel indices starting just after the
cursor and wrapping once around all n channels. -/
def rrIndices (n start : Nat) : List Nat :=
  (List.range n).map (fun k => (start + 1 + k) % n)

/-- First channel index in round-robin order whose channel is active. -/
def MultiChannelQueue.findActiveChannel (q : MultiChannelQueue) : Option Nat :=
  (rrIndices q.channels.length q.currChannel).find?
    (fun i =>
      match q.channels[i]? with
      | some c => c.isActive
      | none => false)

/-- Modelled from the spec: MultiChannelQueue::popFront is only declared in
the header.  Spec section 4.2: scan round-robin from just past currChannel for
an active channel; pop from the first one found, park the cursor there, drop
the cached size by one and adjust the cached active count by the channel's
transition; return no message when no channel is active. -/
def MultiChannelQueue.popFront (q : MultiChannelQueue) :
    MultiChannelQueue × Option Msg × Option Nat :=
  match q.findActiveChannel with
  | none => (q, none, none)
  | some i =>
    match q.channels[i]? with
    | none => (q, none, none)
    | some c =>
      let r := c.popFront
      ({ q with
         channels := q.channels.set i r.1
         currChannel := i
         size := q.size - 1
         activeChannelCount :=
           if c.isActive = r.1.isActive then q.activeChannelCount
           else if r.1.isActive then q.activeChannelCount + 1
           else q.activeChannelCount - 1 }, r.2.1, r.2.2)

/-- Modelled from the spec: MultiChannelQueue::abortMessages is only declared
in the header.  Spec section 4.2: drain every channel via its abort path; the
dropped messages (whose owning-query abort callbacks fire) are returned, and
the cached counters fall to 0. -/
def MultiChannelQueue.abortMessages (q : MultiChannelQueue) :
    MultiChannelQueue × List Msg :=
  ({ q with
     channels := q.channels.map (fun c => (c.abortMessages).1)
     activeChannelCount := 0
     size := 0 },
   (q.channels.map (fun c => c.msgQ)).flatten)

/-- Modelled from the spec: MultiChannelQueue::setRemoteState is only declared
in the header.  Spec sections 4.2 and 7, cases in the listed order:
a frame with peerGen > remoteGen signals a peer restart (section 7
PeerRestart, unconditional): abort all pending messages on all channels,
reset channel sequence numbers, set remoteGen to the new generation;
a frame with peerGen < remoteGen is stale and dropped silently (section 7
Stale); a frame with ourGenSeenByPeer < localGen refers to our previous life
and is dropped silently (section 4.2 case 3); otherwise the update is
forwarded to the channel of the given class, adjusting the cached active
count by the channel's transition. -/
def MultiChannelQueue.setRemoteState (q : MultiChannelQueue)
    (mqt rSize peerGenId ourGenSeenByPeer localSn remoteSn : Nat) :
    MultiChannelQueue × List Msg × Option Nat :=
  if peerGenId > q.remoteGenId then
    ({ q with
       channels :=
         q.channels.map (fun c => Channel.resetSeqNums (c.abortMessages).1)
       activeChannelCount := 0
       size := 0
       remoteGenId := peerGenId },
     (q.channels.map (fun c => c.msgQ)).flatten, none)
  else if peerGenId < q.remoteGenId then
    (q, [], none)
  else if ourGenSeenByPeer < q.localGenId then
    (q, [], none)
  else
    match q.channels[mqt]? with
    | none => (q, [], none)
    | some c =>
      let r := c.setRemoteState rSize localSn remoteSn
      ({ q with
         channels := q.channels.set mqt r.1
         activeChannelCount :=
           if c.isActive = r.1.isActive then q.activeChannelCount
           else if r.1.isActive then q.activeChannelCount + 1
           else q.activeChannelCount - 1 }, [], r.2)

/-- Modelled from the spec: MultiChannelQueue::swap is only declared in the
header.  Spec section 4.2: atomic exchange of the two queues' contents. -/
def MultiChannelQueue.swap (q other : MultiChannelQueue) :
    MultiChannelQueue × MultiChannelQueue :=
  (other, q)

/-- A CLOCK_MONOTONIC reading (struct timespec): seconds and nanoseconds. -/
structure MonotonicReading where
  sec : Nat
  nsec : Nat
deriving Repr, DecidableEq

/-- A gettimeofday reading (struct timeval): wall-clock seconds and
microseconds. -/
structure WallReading where
  sec : Nat
  usec : Nat
deriving Repr, DecidableEq

/-- MultiChannelQueue::getNextGenId (Connection.h lines 270-288).  The
function is compiled per platform: on __APPLE__ builds it reads gettimeofday
(wall clock) and returns tv_sec * 10^9 + tv_usec * 1000; on other builds it
reads clock_gettime(CLOCK_MONOTONIC) and returns ts_sec * 10^9 + ts_nsec.
Both clock readings are passed explicitly, together with the platform flag, so
the dependence of the result on each clock can be stated. -/
def getNextGenId (apple : Bool) (mono : MonotonicReading)
    (wall : WallReading) : Nat :=
  if apple then wall.sec * 1000000000 + wall.usec * 1000
  else mono.sec * 1000000000 + mono.nsec

/-- Connection::ConnectionState (Connection.h lines 299-304). -/
inductive ConnectionState where
  | NOT_CONNECTED
  | CONNECT_IN_PROGRESS
  | CONNECTED
deriving Repr, DecidableEq

/-- The fragment of Connection state that Connection::isConnected reads,
together with the outbound message queue (which may hold buffered messages in
any connection state: sends are buffered while a connect is in progress). -/
structure ConnectionModel where
  connectionState : ConnectionState
  messageQueue : MultiChannelQueue
deriving Repr, DecidableEq

/-- Connection::isConnected (Connection.h lines 363-366). -/
def ConnectionModel.isConnected (c : ConnectionModel) : Bool :=
  decide (c.connectionState = ConnectionState.CONNECTED)

/-- The MultiChannelQueue states reachable from a freshly constructed queue by
any sequence of its operations (spec-modelled pushBack, popFront,
setRemoteState, abortMessages, swap). -/
inductive MCQReachable : MultiChannelQueue → Prop where
  | init : ∀ cfgs genId, MCQReachable (MultiChannelQueue.init cfgs genId)
  | push : ∀ q mqt m q2 st, MCQReachable q →
      q.pushBack mqt m = Except.ok (q2, st) → MCQReachable q2
  | pop : ∀ q, MCQReachable q → MCQReachable (q.popFront).1
  | setRemote : ∀ q mqt rSize pg og lsn rsn, MCQReachable q →
      MCQReachable ((q.setRemoteState mqt rSize pg og lsn rsn).1)
  | abort : ∀ q, MCQReachable q → MCQReachable ((q.abortMessages).1)
  | swapFst : ∀ q other, MCQReachable q → MCQReachable other →
      MCQReachable ((q.swap other).1)
  | swapSnd : ∀ q other, MCQReachable q → MCQReachable other →
      MCQReachable ((q.swap other).2)

/-- The Channel states reachable from a freshly constructed channel by any
sequence of its operations (including the sequence reset applied by the
owning queue on a generation bump). -/
inductive ChannelReachable : Channel → Prop where
  | init : ∀ sl rs, ChannelReachable (Channel.init sl rs)
  | push : ∀ c m c2 st, ChannelReachable c →
      c.pushBack m = Except.ok (c2, st) → ChannelReachable c2
  | pop : ∀ c, ChannelReachable c → ChannelReachable ((c.popFront).1)
  | setRemote : ∀ c rSize lsn rsn, ChannelReachable c →
      ChannelReachable ((c.setRemoteState rSize lsn rsn).1)
  | abort : ∀ c, ChannelReachable c → ChannelReachable ((c.abortMessages).1)
  | reset : ∀ c, ChannelReachable c → ChannelReachable (c.resetSeqNums)

/-! ### Helper lemmas -/

/-- On success, Channel.pushBack appended the message, bumped localSeqNum, and
the admission condition held. -/
theorem pushBack_ok_eq (c : Channel) (m : Msg) (c2 : Channel) (st : Option Nat)
    (h : c.pushBack m = Except.ok (c2, st)) :
    c2 = { c with msgQ := c.msgQ ++ [m], localSeqNum := c.localSeqNum + 1 }
    ∧ c.msgQ.length < c.sendQueueLimit
    ∧ c.localSeqNum - c.localSeqNumOnPeer < c.sendQueueLimit := by
  unfold Channel.pushBack at h
  split at h
  · next hcond =>
    simp only [Except.ok.injEq, Prod.mk.injEq] at h
    exact ⟨h.1.symm, hcond.1, hcond.2⟩
  · exact absurd h (by simp)

/-- When the admission condition fails, Channel.pushBack overflows. -/
theorem pushBack_overflow (c : Channel) (m : Msg)
    (h : ¬(c.msgQ.length < c.sendQueueLimit ∧
           c.localSeqNum - c.localSeqNumOnPeer < c.sendQueueLimit)) :
    c.pushBack m = Except.error PushError.Overflow := by
  unfold Channel.pushBack
  rw [if_neg h]

/-- A channel with an empty queue is not active. -/
theorem isActive_of_empty (c : Channel) (h : c.msgQ = []) :
    c.isActive = false := by
  simp [Channel.isActive, h]

/-- Number of active channels in a list. -/
def countActive (l : List Channel) : Nat :=
  l.countP (fun c => c.isActive)

/-- Total number of queued messages in a list of channels. -/
def totalLen (l : List Channel) : Nat :=
  (l.map (fun c => c.msgQ.length)).sum

/-- The cached counters of a MultiChannelQueue agree with a recount over its
channels. -/
def mcqCountersOk (q : MultiChannelQueue) : Prop :=
  q.activeChannelCount = countActive q.channels ∧ q.size = totalLen q.channels

theorem countActive_nil : countActive [] = 0 := rfl

theorem countActive_set : ∀ (l : List Channel) (i : Nat) (c c2 : Channel),
    l[i]? = some c →
    countActive (l.set i c2) + (if c.isActive then 1 else 0)
      = countActive l + (if c2.isActive then 1 else 0) := by
  intro l
  induction l with
  | nil => intro i c c2 h; simp at h
  | cons hd tl ih =>
    intro i c c2 h
    cases i with
    | zero =>
      simp only [List.getElem?_cons_zero, Option.some.injEq] at h
      subst h
      simp only [List.set_cons_zero, countActive, List.countP_cons]
      omega
    | succ n =>
      simp only [List.getElem?_cons_succ] at h
      have := ih n c c2 h
      simp only [List.set_cons_succ, countActive, List.countP_cons] at this ⊢
      omega

theorem totalLen_set : ∀ (l : List Channel) (i : Nat) (c c2 : Channel),
    l[i]? = some c →
    totalLen (l.set i c2) + c.msgQ.length = totalLen l + c2.msgQ.length := by
  intro l
  induction l with
  | nil => intro i c c2 h; simp at h
  | cons hd tl ih =>
    intro i c c2 h
    cases i with
    | zero =>
      simp only [List.getElem?_cons_zero, Option.some.injEq] at h
      subst h
      simp only [List.set_cons_zero, totalLen, List.map_cons, List.sum_cons]
      omega
    | succ n =>
      simp only [List.getElem?_cons_succ] at h
      have := ih n c c2 h
      simp only [List.set_cons_succ, totalLen, List.map_cons, List.sum_cons]
        at this ⊢
      omega

theorem countActive_eq_zero (l : List Channel) (h : ∀ c ∈ l, c.msgQ = []) :
    countActive l = 0 := by
  refine List.countP_eq_zero.mpr ?_
  intro c hc
  simp [isActive_of_empty c (h c hc)]

theorem totalLen_eq_zero (l : List Channel) (h : ∀ c ∈ l, c.msgQ = []) :
    totalLen l = 0 := by
  unfold totalLen
  induction l with
  | nil => rfl
  | cons hd tl ih =>
    simp only [List.map_cons, List.sum_cons]
    rw [h hd (by simp)]
    simpa using ih (fun c hc => h c (by simp [hc]))

/-- The cached-counter adjustment used by the queue operations matches the
recount after updating one channel. -/
theorem countActive_update (l : List Channel) (i : Nat) (c c2 : Channel)
    (hc : l[i]? = some c) :
    (if c.isActive = c2.isActive then countActive l
     else if c2.isActive then countActive l + 1
     else countActive l - 1) = countActive (l.set i c2) := by
  have h := countActive_set l i c c2 hc
  cases h1 : c.isActive <;> cases h2 : c2.isActive <;>
    simp_all <;> omega

theorem countersOk_init (cfgs : List (Nat × Nat)) (g : Nat) :
    mcqCountersOk (MultiChannelQueue.init cfgs g) := by
  constructor
  · refine (countActive_eq_zero _ ?_).symm
    intro c hc
    rcases List.mem_map.mp hc with ⟨p, _, hp⟩
    rw [← hp]; rfl
  · refine (totalLen_eq_zero _ ?_).symm
    intro c hc
    rcases List.mem_map.mp hc with ⟨p, _, hp⟩
    rw [← hp]; rfl

theorem countersOk_pushBack (q q2 : MultiChannelQueue) (mqt : Nat) (m : Msg)
    (st : Option Nat) (hq : mcqCountersOk q)
    (h : q.pushBack mqt m = Except.ok (q2, st)) : mcqCountersOk q2 := by
  unfold MultiChannelQueue.pushBack at h
  split at h
  · exact absurd h (by simp)
  · rename_i c hc
    split at h
    · exact absurd h (by simp)
    · rename_i c2 st2 hp
      simp only [Except.ok.injEq, Prod.mk.injEq] at h
      obtain ⟨hq2, -⟩ := h
      subst hq2
      obtain ⟨hc2, -, -⟩ := pushBack_ok_eq c m c2 st2 hp
      refine ⟨?_, ?_⟩ <;> dsimp only
      · rw [hq.1]
        exact countActive_update q.channels mqt c c2 hc
      · have ht := totalLen_set q.channels mqt c c2 hc
        have hlen : c2.msgQ.length = c.msgQ.length + 1 := by
          rw [hc2]; simp
        have hs := hq.2
        omega

theorem findActive_spec (q : MultiChannelQueue) (i : Nat)
    (h : q.findActiveChannel = some i) :
    ∃ c, q.channels[i]? = some c ∧ c.isActive = true := by
  unfold MultiChannelQueue.findActiveChannel at h
  have hp := List.find?_some h
  cases hc : q.channels[i]? with
  | none => rw [hc] at hp; simp at hp
  | some c => rw [hc] at hp; exact ⟨c, rfl, by simpa using hp⟩

theorem countersOk_popFront (q : MultiChannelQueue) (hq : mcqCountersOk q) :
    mcqCountersOk ((q.popFront).1) := by
  unfold MultiChannelQueue.popFront
  split
  · exact hq
  · rename_i i hf
    split
    · exact hq
    · rename_i c hc
      obtain ⟨c9, hc9, hact9⟩ := findActive_spec q i hf
      rw [hc] at hc9
      injection hc9 with hcc
      subst hcc
      have hne : c.msgQ ≠ [] := by
        intro hnil
        rw [isActive_of_empty c hnil] at hact9
        exact Bool.false_ne_true hact9
      obtain ⟨mm, rest, hm⟩ : ∃ mm rest, c.msgQ = mm :: rest := by
        cases hcm : c.msgQ with
        | nil => exact absurd hcm hne
        | cons a l => exact ⟨a, l, rfl⟩
      have hpop : (c.popFront).1 = { c with msgQ := rest } := by
        unfold Channel.popFront
        rw [hact9, hm]
        simp
      refine ⟨?_, ?_⟩ <;> dsimp only
      · rw [hq.1]
        exact countActive_update q.channels i c ((c.popFront).1) hc
      · have ht := totalLen_set q.channels i c ((c.popFront).1) hc
        have hlen : ((c.popFront).1).msgQ.length + 1 = c.msgQ.length := by
          rw [hpop, hm]; simp
        have hs := hq.2
        omega

theorem countersOk_setRemoteState (q : MultiChannelQueue)
    (mqt rSize pg og lsn rsn : Nat) (hq : mcqCountersOk q) :
    mcqCountersOk ((q.setRemoteState mqt rSize pg og lsn rsn).1) := by
  unfold MultiChannelQueue.setRemoteState
  split
  · refine ⟨?_, ?_⟩ <;> dsimp only
    · refine (countActive_eq_zero _ ?_).symm
      intro c hcm
      rcases List.mem_map.mp hcm with ⟨c0, _, hc0⟩
      rw [← hc0]; rfl
    · refine (totalLen_eq_zero _ ?_).symm
      intro c hcm
      rcases List.mem_map.mp hcm with ⟨c0, _, hc0⟩
      rw [← hc0]; rfl
  · split
    · exact hq
    · split
      · exact hq
      · split
        · exact hq
        · rename_i c hc
          refine ⟨?_, ?_⟩ <;> dsimp only
          · rw [hq.1]
            exact countActive_update q.channels mqt c
              ((c.setRemoteState rSize lsn rsn).1) hc
          · have hlen : ((c.setRemoteState rSize lsn rsn).1).msgQ.length
                = c.msgQ.length := rfl
            have ht := totalLen_set q.channels mqt c
              ((c.setRemoteState rSize lsn rsn).1) hc
            have hs := hq.2
            omega

theorem countersOk_abort (q : MultiChannelQueue) :
    mcqCountersOk ((q.abortMessages).1) := by
  refine ⟨?_, ?_⟩ <;> dsimp only [MultiChannelQueue.abortMessages]
  · refine (countActive_eq_zero _ ?_).symm
    intro c hcm
    rcases List.mem_map.mp hcm with ⟨c0, _, hc0⟩
    rw [← hc0]; rfl
  · refine (totalLen_eq_zero _ ?_).symm
    intro c hcm
    rcases List.mem_map.mp hcm with ⟨c0, _, hc0⟩
    rw [← hc0]; rfl

theorem mcqCountersOk_of_reachable (q : MultiChannelQueue)
    (h : MCQReachable q) : mcqCountersOk q := by
  induction h with
  | init cfgs g => exact countersOk_init cfgs g
  | push q mqt m q2 st _ hpush ih => exact countersOk_pushBack q q2 mqt m st ih hpush
  | pop q _ ih => exact countersOk_popFront q ih
  | setRemote q mqt rSize pg og lsn rsn _ ih =>
      exact countersOk_setRemoteState q mqt rSize pg og lsn rsn ih
  | abort q _ _ => exact countersOk_abort q
  | swapFst q other _ _ _ ih2 => exact ih2
  | swapSnd q other _ _ ih1 _ => exact ih1

theorem popFront_limits (c : Channel) :
    ((c.popFront).1).remoteSize = c.remoteSize
    ∧ ((c.popFront).1).sendQueueLimit = c.sendQueueLimit := by
  unfold Channel.popFront
  split
  · split
    · exact ⟨rfl, rfl⟩
    · exact ⟨rfl, rfl⟩
  · exact ⟨rfl, rfl⟩

/-- Every reachable channel keeps the spec's lower bounds: the peer-advertised
capacity and the local send limit never drop below 1. -/
theorem channel_limits_of_reachable (c : Channel) (h : ChannelReachable c) :
    1 ≤ c.remoteSize ∧ 1 ≤ c.sendQueueLimit := by
  induction h with
  | init sl rs =>
    constructor <;> dsimp only [Channel.init] <;> split <;> omega
  | push c m c2 st _ hp ih =>
    obtain ⟨hc2, -, -⟩ := pushBack_ok_eq c m c2 st hp
    rw [hc2]
    exact ih
  | pop c _ ih =>
    obtain ⟨h1, h2⟩ := popFront_limits c
    rw [h1, h2]
    exact ih
  | setRemote c rSize lsn rsn _ ih =>
    refine ⟨?_, ih.2⟩
    dsimp only [Channel.setRemoteState]
    split <;> omega
  | abort c _ ih => exact ih
  | reset c _ ih => exact ih

/-- A successful MultiChannelQueue.pushBack advances the target channel's
localSeqNum by exactly one. -/
theorem pushBack_localSeq_succ (q : MultiChannelQueue) (mqt : Nat) (m : Msg)
    (q3 : MultiChannelQueue) (st : Option Nat) (c3 : Channel)
    (h : q.pushBack mqt m = Except.ok (q3, st))
    (hc3 : q3.channels[mqt]? = some c3) :
    ∃ c, q.channels[mqt]? = some c ∧ c3.localSeqNum = c.localSeqNum + 1 := by
  unfold MultiChannelQueue.pushBack at h
  split at h
  · exact absurd h (by simp)
  · rename_i c hc
    split at h
    · exact absurd h (by simp)
    · rename_i c2 st2 hp
      simp only [Except.ok.injEq, Prod.mk.injEq] at h
      obtain ⟨hq3, -⟩ := h
      obtain ⟨hc2, -, -⟩ := pushBack_ok_eq c m c2 st2 hp
      refine ⟨c, hc, ?_⟩
      have hlt : mqt < q.channels.length := (List.getElem?_eq_some.mp hc).1
      have hset : q3.channels[mqt]? = some c2 := by
        rw [← hq3]
        dsimp only
        exact List.getElem?_set_eq_of_lt c2 hlt
      rw [hset] at hc3
      injection hc3 with h33
      rw [← h33, hc2]

/-! ### Claim theorems -/

/-- C1: Channel.pushBack succeeds, appending the message and incrementing
localSeqNum, if and only if both queue.size < sendLimit and the in-flight
window localSeqNum - localSeqNumOnPeer < sendLimit held before the call;
otherwise it fails with Overflow (the failing call returns only the error, so
the channel value the caller holds is untouched, matching the source's throw);
and the peer-advertised remoteSize plays no role in the admission decision. -/
theorem channel_pushBack_admission (c : Channel) (m : Msg) :
    ((c.pushBack m).isOk = true ↔
      (c.msgQ.length < c.sendQueueLimit ∧
       c.localSeqNum - c.localSeqNumOnPeer < c.sendQueueLimit))
    ∧ (∀ c2 st, c.pushBack m = Except.ok (c2, st) →
        c2 = { c with msgQ := c.msgQ ++ [m], localSeqNum := c.localSeqNum + 1 })
    ∧ (¬(c.msgQ.length < c.sendQueueLimit ∧
          c.localSeqNum - c.localSeqNumOnPeer < c.sendQueueLimit) →
        c.pushBack m = Except.error PushError.Overflow)
    ∧ (∀ r, (({ c with remoteSize := r }).pushBack m).isOk
          = (c.pushBack m).isOk) := by
  refine ⟨⟨?_, ?_⟩, ?_, pushBack_overflow c m, ?_⟩
  · intro hok
    by_contra hcond
    rw [pushBack_overflow c m hcond] at hok
    exact Bool.false_ne_true hok
  · intro hcond
    unfold Channel.pushBack
    rw [if_pos hcond]
    rfl
  · intro c2 st hok
    exact (pushBack_ok_eq c m c2 st hok).1
  · intro r
    unfold Channel.pushBack
    dsimp only
    by_cases hcond : (c.msgQ.length < c.sendQueueLimit ∧
        c.localSeqNum - c.localSeqNumOnPeer < c.sendQueueLimit)
    · rw [if_pos hcond, if_pos hcond]
      rfl
    · rw [if_neg hcond, if_neg hcond]

/-- C1 witness: a fresh channel with limits 2 admits a message. -/
theorem channel_pushBack_admission_witness :
    ((Channel.init 2 2).pushBack 5).isOk = true :=
  (channel_pushBack_admission (Channel.init 2 2) 5).1.mpr (by decide)

/-- C2: under the source's asserted invariant localSeqNumOnPeer ≤ localSeqNum,
Channel.isActive returns true iff the peer-advertised remoteSize strictly
exceeds the in-flight count localSeqNum - localSeqNumOnPeer and the queue is
non-empty; and that capacity condition is the same as the available credit
remoteSize - inFlight being positive. -/
theorem channel_isActive_iff (c : Channel)
    (h : c.localSeqNumOnPeer ≤ c.localSeqNum) :
    (c.isActive = true ↔
      (c.localSeqNum - c.localSeqNumOnPeer < c.remoteSize ∧ c.msgQ ≠ []))
    ∧ (c.localSeqNum - c.localSeqNumOnPeer < c.remoteSize ↔
       0 < c.remoteSize - (c.localSeqNum - c.localSeqNumOnPeer)) := by
  constructor
  · unfold Channel.isActive
    simp [List.isEmpty_iff]
  · omega

/-- C2 witness: one in-flight message, capacity 2, non-empty queue: active. -/
theorem channel_isActive_iff_witness :
    (Channel.mk 2 1 0 0 [5] 4).isActive = true :=
  (channel_isActive_iff (Channel.mk 2 1 0 0 [5] 4) (by decide)).1.mpr
    (by decide)

/-- C3: Channel.validateRemoteState returns true iff the peer-reported
observed local sequence number is at most our localSeqNum, and the result does
not depend on the rSize and remoteSeqNum arguments. -/
theorem channel_validateRemoteState_iff (c : Channel) (rSize lsn rsn : Nat) :
    (c.validateRemoteState rSize lsn rsn = true ↔ lsn ≤ c.localSeqNum)
    ∧ (∀ rSize2 rsn2, c.validateRemoteState rSize lsn rsn
        = c.validateRemoteState rSize2 lsn rsn2) :=
  ⟨by simp [Channel.validateRemoteState], fun _ _ => rfl⟩

/-- C4: a control frame carrying a peer generation id strictly greater than
the stored remoteGenId makes MultiChannelQueue.setRemoteState drop every
pending message on every channel (returning them for owning-query abort),
reset each channel's localSeqNum and localSeqNumOnPeer to 0, and store the new
peer generation; a subsequent successful push on any channel then yields
localSeqNum = 1. -/
theorem mcq_setRemoteState_peer_restart (q : MultiChannelQueue)
    (mqt rSize pg og lsn rsn : Nat) (hpg : q.remoteGenId < pg) :
    (q.setRemoteState mqt rSize pg og lsn rsn).2.1
        = (q.channels.map (fun c => c.msgQ)).flatten
    ∧ (∀ c2 ∈ (q.setRemoteState mqt rSize pg og lsn rsn).1.channels,
        c2.msgQ = [] ∧ c2.localSeqNum = 0 ∧ c2.localSeqNumOnPeer = 0)
    ∧ (q.setRemoteState mqt rSize pg og lsn rsn).1.remoteGenId = pg
    ∧ (∀ mqt2 m q3 st c3,
        (q.setRemoteState mqt rSize pg og lsn rsn).1.pushBack mqt2 m
            = Except.ok (q3, st) →
        q3.channels[mqt2]? = some c3 → c3.localSeqNum = 1) := by
  unfold MultiChannelQueue.setRemoteState
  rw [if_pos hpg]
  refine ⟨rfl, ?_, rfl, ?_⟩
  · intro c2 hc2
    dsimp only at hc2
    rcases List.mem_map.mp hc2 with ⟨c0, -, hc0⟩
    rw [← hc0]
    exact ⟨rfl, rfl, rfl⟩
  · intro mqt2 m q3 st c3 hpush hc3
    obtain ⟨c, hc, hseq⟩ := pushBack_localSeq_succ _ mqt2 m q3 st c3 hpush hc3
    have hmem := List.getElem?_mem hc
    dsimp only at hmem
    rcases List.mem_map.mp hmem with ⟨c0, -, hc0⟩
    rw [hseq, ← hc0]
    rfl

/-- C4 witness: a queue with two pending messages sees peer generation 2 > 0;
the stored remote generation becomes 2. -/
theorem mcq_setRemoteState_peer_restart_witness :
    ((MultiChannelQueue.mk [Channel.mk 1 3 0 0 [8, 9] 4] 0 1 2 0 6).setRemoteState
        0 1 2 6 0 0).1.remoteGenId = 2 :=
  (mcq_setRemoteState_peer_restart
      (MultiChannelQueue.mk [Channel.mk 1 3 0 0 [8, 9] 4] 0 1 2 0 6)
      0 1 2 6 0 0 (by decide)).2.2.1

set_option maxRecDepth 8192 in
/-- C5 counterexample: a control frame that is stale with respect to our
generation (ourGenSeenByPeer = 3 < localGen = 5) but at the same time
announces a peer restart (peerGen = 1 > remoteGen = 0) is not dropped
silently: the peer-restart handling runs, dropping the pending message and
bumping the stored remote generation, so the queue state changes. -/
theorem mcq_stale_frame_counterexample :
    ((MultiChannelQueue.mk [Channel.mk 1 1 0 0 [42] 1] 0 1 1 0 5).setRemoteState
        0 1 1 3 0 0).1
      ≠ MultiChannelQueue.mk [Channel.mk 1 1 0 0 [42] 1] 0 1 1 0 5 := by
  decide

/-- C5 (amended): a control frame with ourGenSeenByPeer < localGen that does
not also announce a peer restart (peerGen ≤ remoteGen) is dropped silently:
the queue is unchanged, no message is aborted and no StatusDelta is
produced. -/
theorem mcq_setRemoteState_stale_silent (q : MultiChannelQueue)
    (mqt rSize pg og lsn rsn : Nat)
    (hog : og < q.localGenId) (hpg : pg ≤ q.remoteGenId) :
    q.setRemoteState mqt rSize pg og lsn rsn = (q, [], none) := by
  unfold MultiChannelQueue.setRemoteState
  rw [if_neg (by omega)]
  rcases Nat.lt_or_ge pg q.remoteGenId with hlt | hge
  · rw [if_pos hlt]
  · have hne : ¬ (pg < q.remoteGenId) := by omega
    rw [if_neg hne, if_pos hog]

/-- C5 witness: peer generation 2 ≤ stored 4 and our-generation echo 3 < 9:
the frame is a silent no-op. -/
theorem mcq_setRemoteState_stale_silent_witness :
    (MultiChannelQueue.mk [] 0 0 0 4 9).setRemoteState 0 1 2 3 0 0
      = (MultiChannelQueue.mk [] 0 0 0 4 9, [], none) :=
  mcq_setRemoteState_stale_silent (MultiChannelQueue.mk [] 0 0 0 4 9)
    0 1 2 3 0 0 (by decide) (by decide)

/-- C6 counterexample: on the __APPLE__ branch of the preprocessor
conditional, getNextGenId is computed from the gettimeofday wall-clock reading
(seconds times 10^9 plus microseconds times 1000), not from the
CLOCK_MONOTONIC reading, so wall-clock time is used as the source of a
generation id on that platform (and with microsecond, not nanosecond,
resolution). -/
theorem getNextGenId_uses_wall_clock_on_apple :
    getNextGenId true ⟨5, 7⟩ ⟨1, 2⟩ ≠ 5 * 1000000000 + 7
    ∧ getNextGenId true ⟨5, 7⟩ ⟨1, 2⟩ = 1 * 1000000000 + 2 * 1000 :=
  ⟨by decide, rfl⟩

/-- C6 (amended): on non-Apple builds getNextGenId returns seconds times 10^9
plus nanoseconds of the CLOCK_MONOTONIC reading and is independent of the
wall clock; on __APPLE__ builds it instead falls back to the gettimeofday
wall-clock reading, seconds times 10^9 plus microseconds times 1000. -/
theorem getNextGenId_monotonic_on_nonapple (mono : MonotonicReading)
    (w w2 : WallReading) :
    getNextGenId false mono w = mono.sec * 1000000000 + mono.nsec
    ∧ getNextGenId false mono w = getNextGenId false mono w2
    ∧ getNextGenId true mono w = w.sec * 1000000000 + w.usec * 1000 := by
  refine ⟨?_, ?_, ?_⟩ <;> simp [getNextGenId]

/-- C7: a freshly constructed channel, and every channel reachable from one by
the channel operations, has remoteSize ≥ 1 and sendQueueLimit ≥ 1; in
particular the constructor replaces any configured value below 1 by exactly
1. -/
theorem channel_capacity_at_least_one (c : Channel) (h : ChannelReachable c)
    (slHint rsHint : Nat) :
    (1 ≤ c.remoteSize ∧ 1 ≤ c.sendQueueLimit)
    ∧ (slHint < 1 → (Channel.init slHint rsHint).sendQueueLimit = 1)
    ∧ (rsHint < 1 → (Channel.init slHint rsHint).remoteSize = 1) := by
  refine ⟨channel_limits_of_reachable c h, ?_, ?_⟩ <;> intro hlt <;>
    dsimp only [Channel.init] <;> rw [if_neg (by omega)]

/-- C7 witness: the channel built from configured limits 0 and 0. -/
theorem channel_capacity_at_least_one_witness :
    1 ≤ (Channel.init 0 0).remoteSize ∧ 1 ≤ (Channel.init 0 0).sendQueueLimit :=
  (channel_capacity_at_least_one (Channel.init 0 0)
    (ChannelReachable.init 0 0) 0 0).1

/-- C8: in every MultiChannelQueue state reachable by any sequence of
pushBack, popFront, setRemoteState, abortMessages and swap from a freshly
constructed queue, the cached activeChannelCount equals the number of channels
whose isActive() is true and the cached size equals the sum of the channels'
queue lengths; consequently MultiChannelQueue.isActive returns true iff at
least one channel is active. -/
theorem mcq_cached_counters (q : MultiChannelQueue) (h : MCQReachable q) :
    q.activeChannelCount = q.channels.countP (fun c => c.isActive)
    ∧ q.size = (q.channels.map (fun c => c.msgQ.length)).sum
    ∧ (q.isActive = true ↔ ∃ c ∈ q.channels, c.isActive = true) := by
  obtain ⟨h1, h2⟩ := mcqCountersOk_of_reachable q h
  refine ⟨h1, h2, ?_⟩
  unfold MultiChannelQueue.isActive
  rw [h1]
  simp [countActive, List.countP_pos_iff]

/-- C8 witness: the freshly constructed one-channel queue. -/
theorem mcq_cached_counters_witness :
    (MultiChannelQueue.init [(2, 3)] 11).size
      = ((MultiChannelQueue.init [(2, 3)] 11).channels.map
          (fun c => c.msgQ.length)).sum :=
  (mcq_cached_counters (MultiChannelQueue.init [(2, 3)] 11)
    (MCQReachable.init [(2, 3)] 11)).2.1

/-- C9: a freshly constructed channel has localSeqNum = remoteSeqNum =
localSeqNumOnPeer = 0 and an empty queue; hence its in-flight count is 0, the
invariant localSeqNumOnPeer ≤ localSeqNum holds, and isActive() is false. -/
theorem channel_init_state (sl rs : Nat) :
    (Channel.init sl rs).localSeqNum = 0
    ∧ (Channel.init sl rs).remoteSeqNum = 0
    ∧ (Channel.init sl rs).localSeqNumOnPeer = 0
    ∧ (Channel.init sl rs).msgQ = []
    ∧ (Channel.init sl rs).localSeqNum
        - (Channel.init sl rs).localSeqNumOnPeer = 0
    ∧ (Channel.init sl rs).localSeqNumOnPeer ≤ (Channel.init sl rs).localSeqNum
    ∧ (Channel.init sl rs).isActive = false :=
  ⟨rfl, rfl, rfl, rfl, rfl, Nat.le_refl 0,
   isActive_of_empty (Channel.init sl rs) rfl⟩

/-- C10: Connection.isConnected returns true exactly in the CONNECTED state,
and in particular returns false in NOT_CONNECTED and in CONNECT_IN_PROGRESS,
regardless of what messages are buffered in the outbound queue. -/
theorem connection_isConnected_iff (st : ConnectionState)
    (mq : MultiChannelQueue) :
    ((ConnectionModel.mk st mq).isConnected = true
        ↔ st = ConnectionState.CONNECTED)
    ∧ (ConnectionModel.mk ConnectionState.NOT_CONNECTED mq).isConnected = false
    ∧ (ConnectionModel.mk ConnectionState.CONNECT_IN_PROGRESS mq).isConnected
        = false :=
  ⟨by simp [ConnectionModel.isConnected], rfl, rfl⟩
